import Mathlib

/-!
Shallow embedding of `src/pkg_config_gen.rs` (the pkg-config `.pc` file
generator) and proofs about its construction, mutation and rendering
behaviour.

Rust `PathBuf` values are modelled as `String`: every path stored by this
module is built from a string and `Display` for such a `PathBuf` is the
string itself.  Rust `Vec<String>` is `List String`; `join` is
`String.intercalate`.  The Rust field names `prefix` and `exec_prefix`
are not usable as Lean identifiers, so they are modelled as `pfx` and
`exec_pfx`.
-/

namespace PkgConfigGen

/-- The `header` sub-config of `CApiConfig` (`crate::build::HeaderCApiConfig`):
`{ name, subdirectory, generation }`. -/
structure HeaderCApiConfig where
  name : String
  subdirectory : Bool
  generation : Bool
deriving DecidableEq, Repr

/-- The `pkg_config` sub-config of `CApiConfig`
(`crate::build::PkgConfigCApiConfig`): `{ name, description, version }`. -/
structure PkgConfigCApiConfig where
  name : String
  description : String
  version : String
deriving DecidableEq, Repr

/-- The `library` sub-config of `CApiConfig`
(`crate::build::LibraryCApiConfig`): `{ name, version }`.  The semver
version is modelled as a string; it is never read by this module. -/
structure LibraryCApiConfig where
  name : String
  version : String
deriving DecidableEq, Repr

/-- The capability-API configuration consumed by the constructors
(`crate::build::CApiConfig`). -/
structure CApiConfig where
  header : HeaderCApiConfig
  pkg_config : PkgConfigCApiConfig
  library : LibraryCApiConfig
deriving DecidableEq, Repr

/-- The install-paths provider (`crate::install::InstallPaths`): the three
directories read by `from_workspace`.  `pfx` models the `prefix` field. -/
structure InstallPaths where
  pfx : String
  includedir : String
  libdir : String
deriving DecidableEq, Repr

/-- The two presence checks `from_workspace` performs on the
`structopt::clap::ArgMatches` value: `is_present("includedir")` and
`is_present("libdir")`. -/
structure ArgMatches where
  includedir_present : Bool
  libdir_present : Bool
deriving DecidableEq, Repr

/-- The `PkgConfig` struct of `pkg_config_gen.rs`.  `pfx` and `exec_pfx`
model the `prefix` and `exec_prefix` fields. -/
structure PkgConfig where
  pfx : String
  exec_pfx : String
  includedir : String
  libdir : String
  name : String
  description : String
  version : String
  requires : List String
  requires_private : List String
  libs : List String
  libs_private : List String
  cflags : List String
  conflicts : List String
deriving DecidableEq, Repr

namespace PkgConfig

/-- Translation of `PkgConfig::new(name, capi_config)`. -/
def new (name : String) (capi_config : CApiConfig) : PkgConfig where
  name := capi_config.pkg_config.name
  description := capi_config.pkg_config.description
  version := capi_config.pkg_config.version
  pfx := "/usr/local"
  exec_pfx := "$\x7bprefix\x7d"
  includedir := "$\x7bprefix\x7d/include"
  libdir := "$\x7bexec_prefix\x7d/lib"
  libs := ["-L$\x7blibdir\x7d -l" ++ capi_config.library.name]
  libs_private := []
  requires := []
  requires_private := []
  cflags := [if capi_config.header.subdirectory then
               "-I$\x7bincludedir\x7d/" ++ name
             else
               "-I$\x7bincludedir\x7d"]
  conflicts := []

/-- Translation of `PkgConfig::from_workspace(name, install_paths, args, capi_config)`. -/
def from_workspace (name : String) (install_paths : InstallPaths)
    (args : ArgMatches) (capi_config : CApiConfig) : PkgConfig :=
  let pc := new name capi_config
  let pc := { pc with pfx := install_paths.pfx }
  let pc := if args.includedir_present then
              { pc with includedir := install_paths.includedir }
            else pc
  let pc := if args.libdir_present then
              { pc with libdir := install_paths.libdir }
            else pc
  pc

/-- Translation of `PkgConfig::set_description`. -/
def set_description (self : PkgConfig) (descr : String) : PkgConfig :=
  { self with description := descr }

/-- Translation of `PkgConfig::set_libs`: clears `libs` and pushes the single entry. -/
def set_libs (self : PkgConfig) (lib : String) : PkgConfig :=
  { self with libs := [lib] }

/-- Translation of `PkgConfig::add_lib`: appends to `libs`. -/
def add_lib (self : PkgConfig) (lib : String) : PkgConfig :=
  { self with libs := self.libs ++ [lib] }

/-- Translation of `PkgConfig::set_libs_private`: the source clears `libs` (not
`libs_private`) and pushes the entry onto `libs`. -/
def set_libs_private (self : PkgConfig) (lib : String) : PkgConfig :=
  { self with libs := [lib] }

/-- Translation of `PkgConfig::add_lib_private`: appends to `libs_private`. -/
def add_lib_private (self : PkgConfig) (lib : String) : PkgConfig :=
  { self with libs_private := self.libs_private ++ [lib] }

/-- Translation of `PkgConfig::set_cflags`: the source clears `libs` (not `cflags`) and
pushes the entry onto `libs`. -/
def set_cflags (self : PkgConfig) (flag : String) : PkgConfig :=
  { self with libs := [flag] }

/-- Translation of `PkgConfig::add_cflag`: the source appends to `libs` (not `cflags`). -/
def add_cflag (self : PkgConfig) (flag : String) : PkgConfig :=
  { self with libs := self.libs ++ [flag] }

/-- Translation of `PkgConfig::render`.  The first `format!` builds `base`; the two
conditional `push_str` calls append the `Libs.private:` and `Requires:`
sections; the final `push_str("\n")` appends the trailing newline. -/
def render (self : PkgConfig) : String :=
  let base :=
    "prefix=" ++ self.pfx ++ "\n" ++
    "exec_prefix=" ++ self.exec_pfx ++ "\n" ++
    "libdir=" ++ self.libdir ++ "\n" ++
    "includedir=" ++ self.includedir ++ "\n" ++
    "\n" ++
    "Name: " ++ self.name ++ "\n" ++
    "Description: " ++ self.description ++ "\n" ++
    "Version: " ++ self.version ++ "\n" ++
    "Libs: " ++ String.intercalate " " self.libs ++ "\n" ++
    "Cflags: " ++ String.intercalate " " self.cflags
  let base := if ¬ self.libs_private.isEmpty then
      base ++ ("\n" ++ ("Libs.private: " ++
        String.intercalate " " self.libs_private))
    else base
  let base := if ¬ self.requires.isEmpty then
      base ++ ("\n" ++ ("Requires: " ++
        String.intercalate ", " self.requires))
    else base
  base ++ "\n"

/-- Models a Rust call site `pkg.render()`: the receiver is taken by shared
borrow (`&self`), so the call returns the rendered string together with the
(unchanged) receiver state after the call. -/
def render_call (self : PkgConfig) : String × PkgConfig :=
  ( self.render, self)

end PkgConfig

/-- Spec-side rendering of the mandatory part of the output, following the
spec's §4.3 word for word: the four variable-assignment lines in the order
`prefix=`, `exec_prefix=`, `libdir=`, `includedir=` (each value the path's
display string, unescaped), a blank line, `Name:`, `Description:`,
`Version:` verbatim, `Libs:` space-joined in insertion order, `Cflags:`
space-joined in insertion order. -/
def renderSpecFixed (d : PkgConfig) : String :=
  "prefix=" ++ d.pfx ++ "\n" ++
  "exec_prefix=" ++ d.exec_pfx ++ "\n" ++
  "libdir=" ++ d.libdir ++ "\n" ++
  "includedir=" ++ d.includedir ++ "\n" ++
  "\n" ++
  "Name: " ++ d.name ++ "\n" ++
  "Description: " ++ d.description ++ "\n" ++
  "Version: " ++ d.version ++ "\n" ++
  "Libs: " ++ String.intercalate " " d.libs ++ "\n" ++
  "Cflags: " ++ String.intercalate " " d.cflags

/-- Spec-side rendering of the `Libs.private:` section: present (space-
joined) exactly when `libs_private` is non-empty. -/
def specLibsPrivateSection (d : PkgConfig) : String :=
  if d.libs_private = [] then ""
  else "\n" ++ ("Libs.private: " ++ String.intercalate " " d.libs_private)

/-- Spec-side rendering of the `Requires:` section: present (joined with
comma+space) exactly when `requires` is non-empty. -/
def specRequiresSection (d : PkgConfig) : String :=
  if d.requires = [] then ""
  else "\n" ++ ("Requires: " ++ String.intercalate ", " d.requires)

/-- The optional tail `render` appends after the mandatory part, translated
from the two conditional `push_str` calls in the source. -/
def renderTail (d : PkgConfig) : String :=
  (if ¬ d.libs_private.isEmpty then
     "\n" ++ ("Libs.private: " ++ String.intercalate " " d.libs_private)
   else "") ++
  (if ¬ d.requires.isEmpty then
     "\n" ++ ("Requires: " ++ String.intercalate ", " d.requires)
   else "")

/-- A concrete configuration, field for field the one built in the source's
`test::simple` (the semver `0.1.0` written as a plain string). -/
def sampleConfig : CApiConfig where
  header := { name := "foo", subdirectory := true, generation := true }
  pkg_config := { name := "foo", description := "", version := "0.1" }
  library := { name := "foo", version := "0.1.0" }

/-- Splits a character sequence at every `'\n'`, the line decomposition of
a rendered output (a trailing `'\n'` yields a final empty segment). -/
def splitNl : List Char → List (List Char)
  | [] => [[]]
  | c :: t =>
    if c = '\n' then [] :: splitNl t
    else
      match splitNl t with
      | [] => [[c]]
      | h :: r => (c :: h) :: r

/-- Joins lines with `'\n'` separators; inverse of `splitNl` on
newline-free lines. -/
def joinNl : List (List Char) → List Char
  | [] => []
  | [l] => l
  | l :: ls => l ++ '\n' :: joinNl ls

/-- Whether a line starts with one of the five mandatory field tags. -/
def taggedLine (l : List Char) : Bool :=
  "Name:".data.isPrefixOf l || "Description:".data.isPrefixOf l ||
    "Version:".data.isPrefixOf l || "Libs:".data.isPrefixOf l ||
    "Cflags:".data.isPrefixOf l

/-- The lines of a document's rendered output. -/
def renderLines (d : PkgConfig) : List (List Char) :=
  splitNl ( PkgConfig.render d).data

/-- The line decomposition the renderer produces: the ten mandatory lines,
the optional `Libs.private:` and `Requires:` lines, and the empty final
segment contributed by the trailing newline. -/
def linesOf (d : PkgConfig) : List (List Char) :=
  ["prefix=".data ++ d.pfx.data,
   "exec_prefix=".data ++ d.exec_pfx.data,
   "libdir=".data ++ d.libdir.data,
   "includedir=".data ++ d.includedir.data,
   [],
   "Name: ".data ++ d.name.data,
   "Description: ".data ++ d.description.data,
   "Version: ".data ++ d.version.data,
   "Libs: ".data ++ (String.intercalate " " d.libs).data,
   "Cflags: ".data ++ (String.intercalate " " d.cflags).data]
  ++ (if d.libs_private.isEmpty then []
      else ["Libs.private: ".data ++
        (String.intercalate " " d.libs_private).data])
  ++ (if d.requires.isEmpty then []
      else ["Requires: ".data ++
        (String.intercalate ", " d.requires).data])
  ++ [[]]

/-- A configuration whose package-metadata description embeds a newline
followed by a `Name:` tag. -/
def newlineConfig : CApiConfig where
  header := { name := "foo", subdirectory := true, generation := true }
  pkg_config := { name := "foo", description := "d\nName: evil",
                  version := "0.1" }
  library := { name := "foo", version := "0.1.0" }

/-- C1: For every document, `render()` emits, in this fixed order: the four
variable-assignment lines `prefix=`, `exec_prefix=`, `libdir=`,
`includedir=` (each value the path's display string, unescaped), a blank
line, then `Name:`, `Description:`, `Version:` verbatim, then a `Libs:`
line with all `libs` entries space-joined in insertion order, then a
`Cflags:` line with all `cflags` entries space-joined in insertion order,
and the whole output terminates with a single trailing newline (appended
after the optional tail). -/
theorem render_emits_fixed_order (d : PkgConfig) :
    d.render = renderSpecFixed d ++ renderTail d ++ "\n" := by
  by_cases hl : d.libs_private.isEmpty <;>
    by_cases hr : d.requires.isEmpty <;>
      simp [PkgConfig.render, renderSpecFixed, renderTail, hl, hr,
        String.append_assoc]

/-- C2: the rendered output contains the `Libs.private:` section (space-
joined) exactly when `libs_private` is non-empty and the `Requires:`
section (joined with comma+space) exactly when `requires` is non-empty,
with `Libs.private:` preceding `Requires:`; and `requires_private` and
`conflicts` never influence the output. -/
theorem render_optional_sections (d : PkgConfig)
    (rp cf : List String) :
    d.render =
      renderSpecFixed d ++ specLibsPrivateSection d ++
        specRequiresSection d ++ "\n" ∧
    PkgConfig.render { d with requires_private := rp, conflicts := cf } =
      d.render := by
  constructor
  · by_cases hl : d.libs_private = [] <;>
      by_cases hr : d.requires = [] <;>
        simp [PkgConfig.render, renderSpecFixed, specLibsPrivateSection,
          specRequiresSection, hl, hr, String.append_assoc,
          List.isEmpty_iff]
  · simp [PkgConfig.render]

/-- C3: `new(name, capi_config)` produces the documented literal placeholder
paths, the single composite `libs` entry built from the library sub-config's
name, and `description`/`version` copied verbatim from the package metadata
sub-config. -/
theorem new_defaults (name : String) (capi_config : CApiConfig) :
    ( PkgConfig.new name capi_config).pfx = "/usr/local" ∧
    ( PkgConfig.new name capi_config).exec_pfx = "$\x7bprefix\x7d" ∧
    ( PkgConfig.new name capi_config).includedir = "$\x7bprefix\x7d/include" ∧
    ( PkgConfig.new name capi_config).libdir = "$\x7bexec_prefix\x7d/lib" ∧
    ( PkgConfig.new name capi_config).libs =
      ["-L$\x7blibdir\x7d -l" ++ capi_config.library.name] ∧
    ( PkgConfig.new name capi_config).description =
      capi_config.pkg_config.description ∧
    ( PkgConfig.new name capi_config).version =
      capi_config.pkg_config.version := by
  refine ⟨rfl, rfl, rfl, rfl, rfl, rfl, rfl⟩

/-- C4: `new(name, capi_config)` sets `cflags` to the single entry
`-I$\x7bincludedir\x7d/<name>` (using the `name` argument) when the header
sub-config's `subdirectory` flag is true, and to `-I$\x7bincludedir\x7d`
(no name suffix) when it is false. -/
theorem new_cflags_subdirectory (name : String) (capi_config : CApiConfig) :
    (capi_config.header.subdirectory = true →
      ( PkgConfig.new name capi_config).cflags =
        ["-I$\x7bincludedir\x7d/" ++ name]) ∧
    (capi_config.header.subdirectory = false →
      ( PkgConfig.new name capi_config).cflags =
        ["-I$\x7bincludedir\x7d"]) := by
  constructor <;> intro h <;> simp [PkgConfig.new, h]

/-- Witness for C4 at the sample configuration: the `subdirectory` flag is
true there, and the default `cflags` entry carries the `/foo` suffix. -/
theorem new_cflags_subdirectory_witness :
    sampleConfig.header.subdirectory = true ∧
    ( PkgConfig.new "foo" sampleConfig).cflags =
      ["-I$\x7bincludedir\x7d/foo"] :=
  ⟨rfl, (new_cflags_subdirectory "foo" sampleConfig).1 rfl⟩

/-- C5: `set_libs_private` clears `libs` and replaces it with the single
given entry, leaving `libs_private` unchanged; `set_cflags` likewise clears
`libs` and replaces it with the single given entry, leaving `cflags`
unchanged; `add_cflag` appends the entry to `libs`, leaving `cflags`
unchanged. -/
theorem set_mutators_route_to_libs (d : PkgConfig) (s : String) :
    ( PkgConfig.set_libs_private d s).libs = [s] ∧
    ( PkgConfig.set_libs_private d s).libs_private = d.libs_private ∧
    ( PkgConfig.set_cflags d s).libs = [s] ∧
    ( PkgConfig.set_cflags d s).cflags = d.cflags ∧
    ( PkgConfig.add_cflag d s).libs = d.libs ++ [s] ∧
    ( PkgConfig.add_cflag d s).cflags = d.cflags :=
  ⟨rfl, rfl, rfl, rfl, rfl, rfl⟩

/-- C6: `from_workspace` yields the default constructor's result with `pfx`
(modelling `prefix`) overridden unconditionally from the install paths,
`includedir` overridden exactly when the `includedir` flag is present,
`libdir` overridden exactly when the `libdir` flag is present, and every
other field — `exec_pfx` (modelling `exec_prefix`) included — equal to the
default constructor's. -/
theorem from_workspace_overrides (name : String) (install_paths : InstallPaths)
    (args : ArgMatches) (capi_config : CApiConfig) :
    PkgConfig.from_workspace name install_paths args capi_config =
      { PkgConfig.new name capi_config with
          pfx := install_paths.pfx,
          includedir :=
            if args.includedir_present then install_paths.includedir
            else ( PkgConfig.new name capi_config).includedir,
          libdir :=
            if args.libdir_present then install_paths.libdir
            else ( PkgConfig.new name capi_config).libdir } := by
  cases hi : args.includedir_present <;> cases hl : args.libdir_present <;>
    simp [PkgConfig.from_workspace, hi, hl]

/-- C8: `render` is deterministic, idempotent and side-effect-free: two
calls with no intervening mutation return byte-identical strings, and a
call leaves the receiver unchanged. -/
theorem render_pure_idempotent (d : PkgConfig) :
    ( PkgConfig.render_call d).2 = d ∧
    ( PkgConfig.render_call (( PkgConfig.render_call d).2)).1 =
      ( PkgConfig.render_call d).1 :=
  ⟨rfl, rfl⟩

/-- C9: `libs` is non-empty immediately after construction via either
constructor, and every mutator preserves its non-emptiness. -/
theorem libs_nonempty_invariant :
    (∀ (name : String) (capi_config : CApiConfig),
      ( PkgConfig.new name capi_config).libs ≠ []) ∧
    (∀ (name : String) (install_paths : InstallPaths) (args : ArgMatches)
        (capi_config : CApiConfig),
      ( PkgConfig.from_workspace name install_paths args capi_config).libs ≠
        []) ∧
    (∀ (d : PkgConfig) (s : String), d.libs ≠ [] →
      ( PkgConfig.set_libs d s).libs ≠ [] ∧
      ( PkgConfig.add_lib d s).libs ≠ [] ∧
      ( PkgConfig.set_libs_private d s).libs ≠ [] ∧
      ( PkgConfig.add_lib_private d s).libs ≠ [] ∧
      ( PkgConfig.set_cflags d s).libs ≠ [] ∧
      ( PkgConfig.add_cflag d s).libs ≠ [] ∧
      ( PkgConfig.set_description d s).libs ≠ []) := by
  refine ⟨fun name capi_config => by simp [PkgConfig.new], ?_, ?_⟩
  · intro name install_paths args capi_config
    cases hi : args.includedir_present <;> cases hl : args.libdir_present <;>
      simp [PkgConfig.from_workspace, PkgConfig.new, hi, hl]
  · intro d s h
    refine ⟨by simp [PkgConfig.set_libs], by simp [PkgConfig.add_lib],
      by simp [PkgConfig.set_libs_private], ?_,
      by simp [PkgConfig.set_cflags], by simp [PkgConfig.add_cflag], h⟩
    simpa [PkgConfig.add_lib_private] using h

/-- Witness for C9 at a concrete document: the default document for the
sample configuration has non-empty `libs`, and each mutator keeps it so. -/
theorem libs_nonempty_invariant_witness :
    ( PkgConfig.new "foo" sampleConfig).libs ≠ [] ∧
    ( PkgConfig.add_lib ( PkgConfig.new "foo" sampleConfig) "-lbar").libs ≠
      [] :=
  ⟨libs_nonempty_invariant.1 "foo" sampleConfig,
    (libs_nonempty_invariant.2.2 ( PkgConfig.new "foo" sampleConfig) "-lbar"
      (libs_nonempty_invariant.1 "foo" sampleConfig)).2.1⟩

/-- C10: the document's `name` field is taken from
`capi_config.pkg_config.name`, not from the `name` parameter; the `name`
parameter influences only the `cflags` entry (two calls differing only in
the `name` argument agree on every other field, and agree entirely when
the header `subdirectory` flag is false). -/
theorem new_name_source (name : String) (capi_config : CApiConfig) :
    ( PkgConfig.new name capi_config).name = capi_config.pkg_config.name ∧
    (∀ other : String,
      { PkgConfig.new name capi_config with
          cflags := ( PkgConfig.new other capi_config).cflags } =
        PkgConfig.new other capi_config ∧
      (capi_config.header.subdirectory = false →
        PkgConfig.new name capi_config = PkgConfig.new other capi_config)) := by
  refine ⟨rfl, fun other => ⟨rfl, fun h => ?_⟩⟩
  simp [PkgConfig.new, h]

/-- Witness for C10: with the sample configuration's `subdirectory` flag
flipped off, the `name` argument does not influence the document at all,
and the `Name:` field still comes from the package metadata sub-config. -/
theorem new_name_source_witness :
    ( PkgConfig.new "other"
        { sampleConfig with
            header := { sampleConfig.header with subdirectory := false } }).name
      = "foo" ∧
    PkgConfig.new "other"
        { sampleConfig with
            header := { sampleConfig.header with subdirectory := false } } =
      PkgConfig.new "foo"
        { sampleConfig with
            header := { sampleConfig.header with subdirectory := false } } :=
  ⟨(new_name_source "other"
      { sampleConfig with
          header := { sampleConfig.header with subdirectory := false } }).1,
    ((new_name_source "other"
        { sampleConfig with
            header := { sampleConfig.header with subdirectory := false } }).2
      "foo").2 rfl⟩

theorem splitNl_noNl (l : List Char) (h : '\n' ∉ l) : splitNl l = [l] := by
  induction l with
  | nil => rfl
  | cons c t ih =>
    have hc : ¬ (c = '\n') := by
      intro e; subst e; exact h (List.mem_cons_self _ _)
    have ht : '\n' ∉ t := fun m => h (List.mem_cons_of_mem _ m)
    simp [splitNl, hc, ih ht]

theorem splitNl_append (a b : List Char) (h : '\n' ∉ a) :
    splitNl (a ++ '\n' :: b) = a :: splitNl b := by
  induction a with
  | nil => simp [splitNl]
  | cons c t ih =>
    have hc : ¬ (c = '\n') := by
      intro e; subst e; exact h (List.mem_cons_self _ _)
    have ht : '\n' ∉ t := fun m => h (List.mem_cons_of_mem _ m)
    simp [splitNl, hc, ih ht]

theorem splitNl_joinNl (ls : List (List Char)) (hne : ls ≠ [])
    (h : ∀ l ∈ ls, '\n' ∉ l) : splitNl (joinNl ls) = ls := by
  induction ls with
  | nil => exact absurd rfl hne
  | cons l ls ih =>
    cases ls with
    | nil =>
      simpa [joinNl] using splitNl_noNl l (h l (List.mem_cons_self _ _))
    | cons l2 ls2 =>
      have hstep : joinNl (l :: l2 :: ls2) = l ++ '\n' :: joinNl (l2 :: ls2) :=
        rfl
      rw [hstep, splitNl_append _ _ (h l (List.mem_cons_self _ _)),
        ih (by simp) (fun x hx => h x (List.mem_cons_of_mem _ hx))]

theorem data_nl : "\n".data = ['\n'] := rfl

theorem render_data_eq_joinNl (d : PkgConfig) :
    ( PkgConfig.render d).data = joinNl (linesOf d) := by
  by_cases h1 : d.libs_private.isEmpty <;> by_cases h2 : d.requires.isEmpty <;>
    simp [PkgConfig.render, linesOf, joinNl, h1, h2, data_nl,
      String.data_append, List.append_assoc]

theorem noNl_append (lit : String) (x : List Char) (h1 : '\n' ∉ lit.data)
    (h2 : '\n' ∉ x) : '\n' ∉ lit.data ++ x := fun hm =>
  (List.mem_append.mp hm).elim h1 h2

theorem renderLines_eq (d : PkgConfig)
    (hp : '\n' ∉ d.pfx.data) (he : '\n' ∉ d.exec_pfx.data)
    (hld : '\n' ∉ d.libdir.data) (hid : '\n' ∉ d.includedir.data)
    (hn : '\n' ∉ d.name.data) (hde : '\n' ∉ d.description.data)
    (hv : '\n' ∉ d.version.data)
    (hli : '\n' ∉ (String.intercalate " " d.libs).data)
    (hcf : '\n' ∉ (String.intercalate " " d.cflags).data)
    (hlp : '\n' ∉ (String.intercalate " " d.libs_private).data)
    (hrq : '\n' ∉ (String.intercalate ", " d.requires).data) :
    renderLines d = linesOf d := by
  rw [renderLines, render_data_eq_joinNl]
  refine splitNl_joinNl _ ?_ ?_
  · simp [linesOf]
  · intro l hl2
    unfold linesOf at hl2
    rcases List.mem_append.mp hl2 with h | h
    · rcases List.mem_append.mp h with h | h
      · rcases List.mem_append.mp h with h | h
        · simp only [List.mem_cons, List.not_mem_nil, or_false] at h
          rcases h with rfl | rfl | rfl | rfl | rfl | rfl | rfl | rfl | rfl |
            rfl
          · exact noNl_append _ _ (by decide) hp
          · exact noNl_append _ _ (by decide) he
          · exact noNl_append _ _ (by decide) hld
          · exact noNl_append _ _ (by decide) hid
          · simp
          · exact noNl_append _ _ (by decide) hn
          · exact noNl_append _ _ (by decide) hde
          · exact noNl_append _ _ (by decide) hv
          · exact noNl_append _ _ (by decide) hli
          · exact noNl_append _ _ (by decide) hcf
        · split at h
          · simp at h
          · simp only [List.mem_cons, List.not_mem_nil, or_false] at h
            subst h
            exact noNl_append _ _ (by decide) hlp
      · split at h
        · simp at h
        · simp only [List.mem_cons, List.not_mem_nil, or_false] at h
          subst h
          exact noNl_append _ _ (by decide) hrq
    · simp only [List.mem_cons, List.not_mem_nil, or_false] at h
      subst h
      simp

/-- C7 (amended): for documents none of whose rendered field values (the
four paths, `name`, `description`, `version`, and the joined `libs`,
`cflags`, `libs_private`, `requires` strings) contains a newline, the
rendered output split at newlines has exactly one line starting with each
of `Name:`, `Description:`, `Version:`, `Libs:`, `Cflags:`, and those five
lines appear in that relative order. -/
theorem render_unique_lines_of_newline_free (d : PkgConfig)
    (hp : '\n' ∉ d.pfx.data) (he : '\n' ∉ d.exec_pfx.data)
    (hld : '\n' ∉ d.libdir.data) (hid : '\n' ∉ d.includedir.data)
    (hn : '\n' ∉ d.name.data) (hde : '\n' ∉ d.description.data)
    (hv : '\n' ∉ d.version.data)
    (hli : '\n' ∉ (String.intercalate " " d.libs).data)
    (hcf : '\n' ∉ (String.intercalate " " d.cflags).data)
    (hlp : '\n' ∉ (String.intercalate " " d.libs_private).data)
    (hrq : '\n' ∉ (String.intercalate ", " d.requires).data) :
    ((renderLines d).filter
        (fun l => "Name:".data.isPrefixOf l)).length = 1 ∧
    ((renderLines d).filter
        (fun l => "Description:".data.isPrefixOf l)).length = 1 ∧
    ((renderLines d).filter
        (fun l => "Version:".data.isPrefixOf l)).length = 1 ∧
    ((renderLines d).filter
        (fun l => "Libs:".data.isPrefixOf l)).length = 1 ∧
    ((renderLines d).filter
        (fun l => "Cflags:".data.isPrefixOf l)).length = 1 ∧
    (renderLines d).filter taggedLine =
      ["Name: ".data ++ d.name.data,
       "Description: ".data ++ d.description.data,
       "Version: ".data ++ d.version.data,
       "Libs: ".data ++ (String.intercalate " " d.libs).data,
       "Cflags: ".data ++ (String.intercalate " " d.cflags).data] := by
  rw [renderLines_eq d hp he hld hid hn hde hv hli hcf hlp hrq]
  unfold linesOf
  by_cases h1 : d.libs_private.isEmpty <;> by_cases h2 : d.requires.isEmpty <;>
    simp [h1, h2, taggedLine, List.filter_append, List.filter,
      List.isPrefixOf]

/-- Witness for C7 (amended) at the sample document: every field is
newline-free, and the rendered output has exactly one `Name:` line. -/
theorem render_unique_lines_witness :
    ((renderLines ( PkgConfig.new "foo" sampleConfig)).filter
        (fun l => "Name:".data.isPrefixOf l)).length = 1 :=
  (render_unique_lines_of_newline_free ( PkgConfig.new "foo" sampleConfig)
    (by decide) (by decide) (by decide) (by decide) (by decide) (by decide)
    (by decide) (by decide) (by decide) (by decide) (by decide)).1

/-- C7 counterexample: for the document built by `new` from a configuration
whose description is `"d\nName: evil"`, the rendered output has two lines
starting with `Name:`, so the claim's "exactly one `Name:` line for
arbitrary string contents" fails. -/
theorem render_unique_lines_counterexample :
    ((renderLines ( PkgConfig.new "foo" newlineConfig)).filter
        (fun l => "Name:".data.isPrefixOf l)).length = 2 ∧
    ¬ ((renderLines ( PkgConfig.new "foo" newlineConfig)).filter
        (fun l => "Name:".data.isPrefixOf l)).length = 1 := by
  constructor <;> decide

end PkgConfigGen
